import Mathlib

/-!
# Verification of the PureMVC JS multicore framework (Model / Facade core)

Shallow embedding of the repository's JavaScript sources:

* `src/src/index.js` — the `Model` multiton class (constructor, `getInstance`,
  `registerProxy`, `retrieveProxy`, `hasProxy`, `removeProxy`, `removeModel`,
  static `instanceMap`).
* `src/unnamed/part_000` — the compiled `Facade` multiton class (constructor,
  `getInstance`, `hasCore`, `removeCore`, `removeProxy`, `sendNotification`,
  `notifyObservers`, …).

The `View`, `Controller` and `Notification` classes are imported by the
sources above but their files are not part of the provided sources; where a
claim depends on them they are modelled from the specification (each such
definition carries a doc comment starting `Modelled from the spec:`).

JavaScript conventions embedded explicitly:

* a multiton key may be `null`, `undefined` or a string (`JSKey`); property
  access on the `instanceMap` array coerces the key to a string
  (`JSKey.toProp`), and `!key` is falsiness (`JSKey.truthy`);
* the `instanceMap` / `proxyMap` "arrays" are used as string-keyed maps;
  they are embedded as association lists with `delete` = removal of the
  binding and assignment = replacement of the binding;
* a `proxyMap` slot can hold a proxy object, `null` (written by
  `removeProxy`) or `undefined` (never written) — `PEntry`;
* `throw` is embedded as an `Except.error` result paired with the state at
  the moment of the throw (all mutations performed before the throw are
  kept, exactly as in JS; in the code at hand no mutation precedes a throw).
-/

/-- A JavaScript value usable as a multiton key: `null`, `undefined`, or a
string. -/
inductive JSKey where
  | null : JSKey
  | undef : JSKey
  | str : String → JSKey
deriving DecidableEq, Repr

/-- JS property-name coercion: `a[null]` reads property `"null"`,
`a[undefined]` reads `"undefined"`, a string indexes itself. -/
def JSKey.toProp : JSKey → String
  | .null => "null"
  | .undef => "undefined"
  | .str s => s

/-- JS truthiness of a key: `null`, `undefined` and `""` are falsy. -/
def JSKey.truthy : JSKey → Bool
  | .null => false
  | .undef => false
  | .str s => s ≠ ""

/-- Association-list lookup: the value bound to string key `k`, if any.
Embeds reading a slot of a JS array used as a string-keyed map (absent slot =
`undefined`). -/
def alookup (m : List (String × Nat)) (k : String) : Option Nat :=
  (m.find? (fun e => e.1 = k)).map (·.2)

/-- Association-list update: bind `k` to `v`, replacing any previous
binding. Embeds `m[k] = v` on a JS array used as a map. -/
def aset (m : List (String × Nat)) (k : String) (v : Nat) : List (String × Nat) :=
  (k, v) :: m.filter (fun e => e.1 ≠ k)

/-- Association-list deletion. Embeds `delete m[k]`. -/
def adel (m : List (String × Nat)) (k : String) : List (String × Nat) :=
  m.filter (fun e => e.1 ≠ k)

/-- The process-wide static state of the four multiton classes: the
`instanceMap` of `Model` and `Facade` (from the sources) and of `View` and
`Controller` (modelled), each mapping a property string to the identity of
the instance stored there. Object identities are drawn from the `nextId`
counter, so two instances are the same JS object iff their ids are equal. -/
structure CoreState where
  modelMap : List (String × Nat)
  viewMap : List (String × Nat)
  controllerMap : List (String × Nat)
  facadeMap : List (String × Nat)
  nextId : Nat
deriving DecidableEq, Repr

namespace Model

/-- `new Model(key)` from `src/src/index.js` lines 77–103: if
`Model.instanceMap[key]` is truthy, `throw new Error(Model.MULTITON_MSG)`;
otherwise initialize the instance (`proxyMap`, `multitonKey` — instance
fields, tracked separately), store it in `Model.instanceMap[key]`, and call
the no-op `initializeModel`. The result pairs the outcome (the new
instance's id, or the thrown error) with the static state at return/throw
time. -/
def construct (key : JSKey) (s : CoreState) : Except Unit Nat × CoreState :=
  match alookup s.modelMap key.toProp with
  | some _ => (Except.error (), s)
  | none =>
      (Except.ok s.nextId,
        { s with
          modelMap := aset s.modelMap key.toProp s.nextId
          nextId := s.nextId + 1 })

/-- `Model.getInstance(key)` from `src/src/index.js` lines 128–137: `null`
for a falsy key; otherwise construct on a cache miss (re-storing the new
instance, as the JS assignment does) and return `Model.instanceMap[key]`. -/
def getInstance (key : JSKey) (s : CoreState) : Except Unit (Option Nat) × CoreState :=
  if key.truthy then
    match alookup s.modelMap key.toProp with
    | some id => (Except.ok (some id), s)
    | none =>
        match construct key s with
        | (Except.error e, s') => (Except.error e, s')
        | (Except.ok id, s') =>
            let m := aset s'.modelMap key.toProp id
            (Except.ok (alookup m key.toProp), { s' with modelMap := m })
  else (Except.ok none, s)

/-- `Model.removeModel(key)` from `src/src/index.js` lines 195–197:
`delete Model.instanceMap[key]`. -/
def removeModel (key : JSKey) (s : CoreState) : CoreState :=
  { s with modelMap := adel s.modelMap key.toProp }

end Model

namespace View

/-- Modelled from the spec: the `View` class file is not among the provided
sources. Per §2 and §6 it is a per-key multiton like `Model`; its factory
creates the registry for a key on first use and returns the existing one
afterwards. Only its `instanceMap` bookkeeping is needed by the claims. -/
def getInstance (key : JSKey) (s : CoreState) : Option Nat × CoreState :=
  if key.truthy then
    match alookup s.viewMap key.toProp with
    | some id => (some id, s)
    | none =>
        (some s.nextId,
          { s with
            viewMap := aset s.viewMap key.toProp s.nextId
            nextId := s.nextId + 1 })
  else (none, s)

/-- Modelled from the spec: `View.removeView(key)` (called by
`Facade.removeCore`, `src/unnamed/part_000` line 265) — §6: "an external
teardown call must deterministically release a key's View … registries". -/
def removeView (key : JSKey) (s : CoreState) : CoreState :=
  { s with viewMap := adel s.viewMap key.toProp }

end View

namespace Controller

/-- Modelled from the spec: the `Controller` class file is not among the
provided sources. Per §2 and §6 it is a per-key multiton like `Model`. -/
def getInstance (key : JSKey) (s : CoreState) : Option Nat × CoreState :=
  if key.truthy then
    match alookup s.controllerMap key.toProp with
    | some id => (some id, s)
    | none =>
        (some s.nextId,
          { s with
            controllerMap := aset s.controllerMap key.toProp s.nextId
            nextId := s.nextId + 1 })
  else (none, s)

/-- Modelled from the spec: `Controller.removeController(key)` (called by
`Facade.removeCore`) — §6: teardown releases the key's Controller
registries. -/
def removeController (key : JSKey) (s : CoreState) : CoreState :=
  { s with controllerMap := adel s.controllerMap key.toProp }

end Controller

namespace Facade

/-- `new Facade(key)` from `src/unnamed/part_000` line 18 onward: if
`Facade.instanceMap[key] != null`, throw `Facade.MULTITON_MSG`; otherwise
null the instance fields, set `multitonKey` via `initializeNotifier(key)`,
store the instance in `Facade.instanceMap[key]`, then run
`initializeFacade` = `initializeModel(); initializeController();
initializeView()`, each fetching the corresponding multiton for the same
key. The instance fields `model`/`controller`/`view` hold those results
(possibly `null` for a falsy key); no claim inspects them here, so only the
static maps are tracked. -/
def construct (key : JSKey) (s : CoreState) : Except Unit Nat × CoreState :=
  match alookup s.facadeMap key.toProp with
  | some _ => (Except.error (), s)
  | none =>
      let id := s.nextId
      let s1 : CoreState :=
        { s with facadeMap := aset s.facadeMap key.toProp id, nextId := id + 1 }
      match Model.getInstance key s1 with
      | (Except.error e, s2) => (Except.error e, s2)
      | (Except.ok _, s2) =>
          let s3 := (Controller.getInstance key s2).2
          let s4 := (View.getInstance key s3).2
          (Except.ok id, s4)

/-- `Facade.getInstance(key)` from `src/unnamed/part_000` line 63: `null`
for a falsy key; otherwise construct on a cache miss and return
`Facade.instanceMap[key]`. -/
def getInstance (key : JSKey) (s : CoreState) : Except Unit (Option Nat) × CoreState :=
  if key.truthy then
    match alookup s.facadeMap key.toProp with
    | some id => (Except.ok (some id), s)
    | none =>
        match construct key s with
        | (Except.error e, s') => (Except.error e, s')
        | (Except.ok id, s') =>
            let m := aset s'.facadeMap key.toProp id
            (Except.ok (alookup m key.toProp), { s' with facadeMap := m })
  else (Except.ok none, s)

/-- `Facade.hasCore(key)` from `src/unnamed/part_000` line 257:
`!!Facade.instanceMap[key]`. -/
def hasCore (key : JSKey) (s : CoreState) : Bool :=
  (alookup s.facadeMap key.toProp).isSome

/-- `Facade.removeCore(key)` from `src/unnamed/part_000` line 265: return
early if `Facade.instanceMap[key]` is falsy; otherwise
`Model.removeModel(key); View.removeView(key);
Controller.removeController(key); delete Facade.instanceMap[key]`. -/
def removeCore (key : JSKey) (s : CoreState) : CoreState :=
  if (alookup s.facadeMap key.toProp).isSome then
    let s1 := Model.removeModel key s
    let s2 := View.removeView key s1
    let s3 := Controller.removeController key s2
    { s3 with facadeMap := adel s3.facadeMap key.toProp }
  else s

end Facade

/-!
## The proxy registry of one Model instance

`Model.registerProxy` / `retrieveProxy` / `hasProxy` / `removeProxy`
(`src/src/index.js` lines 143–186) act on the instance field `proxyMap`, a
JS array used as a string-keyed map. A slot holds the registered proxy
object, or `null` (written back by `removeProxy`), or `undefined` (never
written). The lifecycle hooks these methods invoke on the proxy object
(`initializeNotifier`, `onRegister`, `onRemove`) are application code; each
call is recorded as an event, together with the two map writes, so the
order of effects visible to the proxy is part of the returned trace. -/

/-- A proxy object as far as the Model touches it: an identity and the name
returned by `getProxyName()`. -/
structure ProxyObj where
  id : Nat
  name : String
deriving DecidableEq, Repr

/-- The content of a `proxyMap` slot: `undefined` (never assigned), `null`
(assigned by `removeProxy`), or a proxy object. -/
inductive PEntry where
  | undef : PEntry
  | nul : PEntry
  | prox : ProxyObj → PEntry
deriving DecidableEq, Repr

/-- JS truthiness of a `proxyMap` slot: only an object is truthy. -/
def PEntry.truthy : PEntry → Bool
  | .prox _ => true
  | _ => false

/-- A slot is null-equivalent (reads as "no proxy") iff it is falsy:
`undefined` or `null`. -/
def PEntry.isNullEquiv (e : PEntry) : Bool := !e.truthy

/-- The `proxyMap` instance field: association list over proxy names; an
absent binding reads as `undefined`. -/
def PMap := List (String × PEntry)
deriving DecidableEq

/-- Read `proxyMap[n]`. -/
def pmGet (m : PMap) (n : String) : PEntry :=
  match (List.find? (fun e => e.1 = n) m).map (·.2) with
  | some e => e
  | none => PEntry.undef

/-- Write `proxyMap[n] = e`. -/
def pmSet (m : PMap) (n : String) (e : PEntry) : PMap :=
  (n, e) :: List.filter (fun x => x.1 ≠ n) m

/-- An effect visible to application code during a proxy-registry
operation: a lifecycle-hook invocation on a proxy object, or a write to the
`proxyMap`. -/
inductive PEvent where
  | initNotifier : Nat → JSKey → PEvent
  | storeEntry : String → Nat → PEvent
  | clearEntry : String → PEvent
  | onRegister : Nat → PEvent
  | onRemove : Nat → PEvent
deriving DecidableEq, Repr

namespace Model

/-- `Model.registerProxy(proxy)` from `src/src/index.js` lines 143–147:
`proxy.initializeNotifier(this.multitonKey)`, then
`this.proxyMap[proxy.getProxyName()] = proxy`, then `proxy.onRegister()`.
Returns the updated map and the ordered trace of effects. -/
def registerProxy (mk : JSKey) (m : PMap) (p : ProxyObj) : PMap × List PEvent :=
  (pmSet m p.name (PEntry.prox p),
    [PEvent.initNotifier p.id mk, PEvent.storeEntry p.name p.id, PEvent.onRegister p.id])

/-- `Model.retrieveProxy(proxyName)` from `src/src/index.js` lines 156–158:
`return this.proxyMap[proxyName]`. -/
def retrieveProxy (m : PMap) (n : String) : PEntry :=
  pmGet m n

/-- `Model.hasProxy(proxyName)` from `src/src/index.js` lines 166–168:
`return !!this.proxyMap[proxyName]`. -/
def hasProxy (m : PMap) (n : String) : Bool :=
  (pmGet m n).truthy

/-- `Model.removeProxy(proxyName)` from `src/src/index.js` lines 178–186:
`var proxy = this.proxyMap[proxyName]; if (proxy) {
this.proxyMap[proxyName] = null; proxy.onRemove(); } return proxy`.
Returns the returned value, the updated map and the effect trace. -/
def removeProxy (m : PMap) (n : String) : PEntry × PMap × List PEvent :=
  match pmGet m n with
  | PEntry.prox p =>
      (PEntry.prox p, pmSet m n PEntry.nul, [PEvent.clearEntry n, PEvent.onRemove p.id])
  | e => (e, m, [])

end Model

namespace Facade

/-- `Facade.removeProxy(proxyName)` from `src/unnamed/part_000` line 181:
`var proxy = null; if (this.model) { proxy =
this.model.removeProxy(proxyName) } return proxy`. The facade's `model`
field is `none` when absent. -/
def removeProxy (model : Option PMap) (n : String) : PEntry × Option PMap × List PEvent :=
  match model with
  | none => (PEntry.nul, none, [])
  | some m =>
      match Model.removeProxy m n with
      | (r, m', ev) => (r, some m', ev)

/-- `Facade.retrieveProxy(proxyName)` from `src/unnamed/part_000` line 175:
`return this.model.retrieveProxy(proxyName)`. -/
def retrieveProxy (m : PMap) (n : String) : PEntry :=
  Model.retrieveProxy m n

end Facade

/-!
## Notification dispatch

`Facade.sendNotification` / `Facade.notifyObservers` are in
`src/unnamed/part_000` (lines 228 and 240). The `Notification` class and
`View.notifyObservers` they call are not among the provided sources and are
modelled from the spec (§2 data model, §4.1). Observer callbacks are
arbitrary state transformers (`env`), so a callback may register or remove
observers for any name while a dispatch is in progress. -/

/-- An opaque JS value used for a notification body or type. -/
inductive JSVal where
  | undef : JSVal
  | null : JSVal
  | str : String → JSVal
  | num : Int → JSVal
  | obj : Nat → JSVal
deriving DecidableEq, Repr

/-- Modelled from the spec: the `Notification` class
(`patterns/observer/Notification`, not among the provided sources) — §2:
"an immutable envelope {name, body, type}"; the constructor stores its
three arguments. -/
structure Notification where
  name : String
  body : JSVal
  type : JSVal
deriving DecidableEq, Repr

/-- An Observer as the View stores it: the callback (`notifyMethod`) and
the context (`notifyContext`), each by identity. -/
structure ObserverObj where
  notifyMethod : Nat
  notifyContext : Nat
deriving DecidableEq, Repr

/-- The View-owned observer registry: notification name → ordered observer
sequence; an absent binding means "no interest" (spec §4.1). -/
structure ViewState where
  observerMap : List (String × List ObserverObj)
deriving Repr

/-- Read the observer sequence registered for a name, if any. -/
def omGet (s : ViewState) (n : String) : Option (List ObserverObj) :=
  (List.find? (fun e => e.1 = n) s.observerMap).map (·.2)

/-- The behaviour of observer callbacks: given the observer, the
notification and the current view state, produce the next view state. The
callback may mutate the observer registry arbitrarily. -/
def ObsEnv := ObserverObj → Notification → ViewState → ViewState

namespace View

/-- Invoke each observer of the snapshot in order on the evolving state,
logging each invocation. -/
def dispatchList (env : ObsEnv) (note : Notification) :
    List ObserverObj → ViewState × List ObserverObj → ViewState × List ObserverObj
  | [], acc => acc
  | o :: rest, acc => dispatchList env note rest (env o note acc.1, acc.2 ++ [o])

/-- Modelled from the spec: `View.notifyObservers(notification)` (the
`View` class is not among the provided sources) — §4.1: if no sequence is
registered for `notification.name`, return with no effect; otherwise take a
snapshot copy of the sequence before notifying any observer, then notify
each Observer in the snapshot in snapshot order by invoking its callback
bound to its context with the notification. Returns the final state and the
ordered list of observers actually notified. -/
def notifyObservers (env : ObsEnv) (note : Notification) (s : ViewState) :
    ViewState × List ObserverObj :=
  match omGet s note.name with
  | none => (s, [])
  | some seqRef =>
      let snapshot := seqRef
      dispatchList env note snapshot (s, [])

end View

namespace Facade

/-- `Facade.notifyObservers(notification)` from `src/unnamed/part_000` line
240: `if (this.view) { this.view.notifyObservers(notification) }`. The
facade's `view` field is `none` when absent. Returns the resulting view
field and the list of notifications forwarded to `View.notifyObservers`. -/
def notifyObserversOf (env : ObsEnv) (view : Option ViewState) (note : Notification) :
    Option ViewState × List Notification :=
  match view with
  | none => (none, [])
  | some vs => (some (View.notifyObservers env note vs).1, [note])

/-- `Facade.sendNotification(name, body, type)` from `src/unnamed/part_000`
line 228: `this.notifyObservers(new Notification(notificationName, body,
type))` — a single synchronous call constructing exactly one
`Notification`. -/
def sendNotification (env : ObsEnv) (view : Option ViewState)
    (name : String) (body type : JSVal) : Option ViewState × List Notification :=
  notifyObserversOf env view (Notification.mk name body type)

end Facade

/-! ## Map and evaluation lemmas -/

theorem find?_filter_of_imp (p q : α → Bool) (l : List α)
    (h : ∀ a, p a = true → q a = true) :
    (l.filter q).find? p = l.find? p := by
  induction l with
  | nil => rfl
  | cons a l ih =>
      by_cases hq : q a = true
      · by_cases hp : p a = true
        · simp [List.filter_cons, hq, List.find?, hp]
        · simp [List.filter_cons, hq, List.find?, hp, ih]
      · have hp : p a = false := by
          cases hpa : p a
          · rfl
          · exact absurd (h a hpa) hq
        simp [List.filter_cons, hq, List.find?, hp, ih]

theorem alookup_aset_self (m : List (String × Nat)) (k : String) (v : Nat) :
    alookup (aset m k v) k = some v := by
  simp [alookup, aset, List.find?]

theorem alookup_aset_ne (m : List (String × Nat)) (k k' : String) (v : Nat)
    (h : k' ≠ k) : alookup (aset m k v) k' = alookup m k' := by
  simp only [alookup, aset, List.find?]
  have : (decide ((k, v).1 = k')) = false := by simp [Ne.symm h]
  rw [this]
  rw [find?_filter_of_imp]
  intro a ha
  simp only [decide_eq_true_eq] at ha
  simp [ha, h]

theorem alookup_adel_self (m : List (String × Nat)) (k : String) :
    alookup (adel m k) k = none := by
  have h : List.find? (fun e => decide (e.1 = k)) (List.filter (fun e => decide (e.1 ≠ k)) m)
      = none := by
    rw [List.find?_eq_none]
    intro a ha
    have := List.of_mem_filter ha
    simp only [decide_eq_true_eq] at this ⊢
    exact this
  simp [alookup, adel, h]

theorem alookup_adel_ne (m : List (String × Nat)) (k k' : String)
    (h : k' ≠ k) : alookup (adel m k) k' = alookup m k' := by
  simp only [alookup, adel]
  rw [find?_filter_of_imp]
  intro a ha
  simp only [decide_eq_true_eq] at ha
  simp [ha, h]

theorem pmGet_pmSet_self (m : PMap) (n : String) (e : PEntry) :
    pmGet (pmSet m n e) n = e := by
  simp [pmGet, pmSet, List.find?]

theorem pmGet_pmSet_ne (m : PMap) (n n' : String) (e : PEntry)
    (h : n' ≠ n) : pmGet (pmSet m n e) n' = pmGet m n' := by
  simp only [pmGet, pmSet, List.find?]
  have : (decide ((n, e).1 = n')) = false := by simp [Ne.symm h]
  rw [this]
  rw [find?_filter_of_imp]
  intro a ha
  simp only [decide_eq_true_eq] at ha
  simp [ha, h]

/-! ## Evaluation lemmas for the multiton operations -/

theorem model_construct_of_some (key : JSKey) (s : CoreState) (id : Nat)
    (h : alookup s.modelMap key.toProp = some id) :
    Model.construct key s = (Except.error (), s) := by
  simp [Model.construct, h]

theorem model_construct_of_none (key : JSKey) (s : CoreState)
    (h : alookup s.modelMap key.toProp = none) :
    Model.construct key s =
      (Except.ok s.nextId,
        { s with
          modelMap := aset s.modelMap key.toProp s.nextId
          nextId := s.nextId + 1 }) := by
  simp [Model.construct, h]

theorem model_getInstance_of_falsy (key : JSKey) (s : CoreState)
    (h : key.truthy = false) :
    Model.getInstance key s = (Except.ok none, s) := by
  simp [Model.getInstance, h]

theorem model_getInstance_of_some (key : JSKey) (s : CoreState) (id : Nat)
    (h : key.truthy = true) (hm : alookup s.modelMap key.toProp = some id) :
    Model.getInstance key s = (Except.ok (some id), s) := by
  simp [Model.getInstance, h, hm]

theorem model_getInstance_of_none (key : JSKey) (s : CoreState)
    (h : key.truthy = true) (hm : alookup s.modelMap key.toProp = none) :
    Model.getInstance key s =
      (Except.ok (some s.nextId),
        { s with
          modelMap := aset (aset s.modelMap key.toProp s.nextId) key.toProp s.nextId
          nextId := s.nextId + 1 }) := by
  simp [Model.getInstance, Model.construct, h, hm, alookup_aset_self]

theorem model_getInstance_shape (key : JSKey) (s : CoreState) :
    ∃ v, (Model.getInstance key s).1 = Except.ok v ∧
      ((Model.getInstance key s).2).facadeMap = s.facadeMap ∧
      ((Model.getInstance key s).2).viewMap = s.viewMap ∧
      ((Model.getInstance key s).2).controllerMap = s.controllerMap := by
  by_cases h : key.truthy = true
  · cases hm : alookup s.modelMap key.toProp with
    | some id =>
        exact ⟨some id, by rw [model_getInstance_of_some key s id h hm]; exact ⟨rfl, rfl, rfl, rfl⟩⟩
    | none =>
        refine ⟨some s.nextId, ?_⟩
        rw [model_getInstance_of_none key s h hm]
        exact ⟨rfl, rfl, rfl, rfl⟩
  · have h' : key.truthy = false := by simpa using h
    exact ⟨none, by rw [model_getInstance_of_falsy key s h']; exact ⟨rfl, rfl, rfl, rfl⟩⟩

theorem controller_getInstance_frame (key : JSKey) (s : CoreState) :
    ((Controller.getInstance key s).2).facadeMap = s.facadeMap ∧
    ((Controller.getInstance key s).2).modelMap = s.modelMap ∧
    ((Controller.getInstance key s).2).viewMap = s.viewMap := by
  by_cases h : key.truthy = true
  · cases hm : alookup s.controllerMap key.toProp with
    | some id => simp [Controller.getInstance, h, hm]
    | none => simp [Controller.getInstance, h, hm]
  · have h' : key.truthy = false := by simpa using h
    simp [Controller.getInstance, h']

theorem view_getInstance_frame (key : JSKey) (s : CoreState) :
    ((View.getInstance key s).2).facadeMap = s.facadeMap ∧
    ((View.getInstance key s).2).modelMap = s.modelMap ∧
    ((View.getInstance key s).2).controllerMap = s.controllerMap := by
  by_cases h : key.truthy = true
  · cases hm : alookup s.viewMap key.toProp with
    | some id => simp [View.getInstance, h, hm]
    | none => simp [View.getInstance, h, hm]
  · have h' : key.truthy = false := by simpa using h
    simp [View.getInstance, h']

theorem facade_construct_of_some (key : JSKey) (s : CoreState) (id : Nat)
    (h : alookup s.facadeMap key.toProp = some id) :
    Facade.construct key s = (Except.error (), s) := by
  simp [Facade.construct, h]

theorem facade_construct_of_none (key : JSKey) (s : CoreState)
    (hm : alookup s.facadeMap key.toProp = none) :
    (Facade.construct key s).1 = Except.ok s.nextId ∧
    (Facade.construct key s).2.facadeMap = aset s.facadeMap key.toProp s.nextId := by
  simp only [Facade.construct, hm]
  set s1 : CoreState :=
    { s with facadeMap := aset s.facadeMap key.toProp s.nextId, nextId := s.nextId + 1 }
    with hs1
  obtain ⟨v, hv, hf, -, -⟩ := model_getInstance_shape key s1
  rcases hMI : Model.getInstance key s1 with ⟨fst, s2⟩
  rw [hMI] at hv hf
  simp only at hv hf
  subst hv
  refine ⟨rfl, ?_⟩
  show (View.getInstance key ((Controller.getInstance key s2).2)).2.facadeMap
      = aset s.facadeMap key.toProp s.nextId
  rw [(view_getInstance_frame key ((Controller.getInstance key s2).2)).1,
    (controller_getInstance_frame key s2).1, hf]

theorem facade_getInstance_of_falsy (key : JSKey) (s : CoreState)
    (h : key.truthy = false) :
    Facade.getInstance key s = (Except.ok none, s) := by
  simp [Facade.getInstance, h]

theorem facade_getInstance_of_some (key : JSKey) (s : CoreState) (id : Nat)
    (h : key.truthy = true) (hm : alookup s.facadeMap key.toProp = some id) :
    Facade.getInstance key s = (Except.ok (some id), s) := by
  simp [Facade.getInstance, h, hm]

theorem model_getInstance_truthy (key : JSKey) (s : CoreState)
    (h : key.truthy = true) :
    ∃ id, (Model.getInstance key s).1 = Except.ok (some id) ∧
      alookup ((Model.getInstance key s).2).modelMap key.toProp = some id := by
  cases hm : alookup s.modelMap key.toProp with
  | some id =>
      refine ⟨id, ?_, ?_⟩
      · rw [model_getInstance_of_some key s id h hm]
      · rw [model_getInstance_of_some key s id h hm]; exact hm
  | none =>
      refine ⟨s.nextId, ?_, ?_⟩
      · rw [model_getInstance_of_none key s h hm]
      · rw [model_getInstance_of_none key s h hm]; exact alookup_aset_self _ _ _

theorem facade_getInstance_truthy (key : JSKey) (s : CoreState)
    (h : key.truthy = true) :
    ∃ id, (Facade.getInstance key s).1 = Except.ok (some id) ∧
      alookup ((Facade.getInstance key s).2).facadeMap key.toProp = some id := by
  cases hm : alookup s.facadeMap key.toProp with
  | some id =>
      refine ⟨id, ?_, ?_⟩
      · rw [facade_getInstance_of_some key s id h hm]
      · rw [facade_getInstance_of_some key s id h hm]; exact hm
  | none =>
      obtain ⟨hc1, hc2⟩ := facade_construct_of_none key s hm
      simp only [Facade.getInstance, h, if_true, hm]
      rcases hFC : Facade.construct key s with ⟨fst, s'⟩
      rw [hFC] at hc1 hc2
      simp only at hc1 hc2
      subst hc1
      refine ⟨s.nextId, ?_, ?_⟩
      · show Except.ok (alookup (aset s'.facadeMap key.toProp s.nextId) key.toProp)
            = Except.ok (some s.nextId)
        rw [alookup_aset_self]
      · show alookup (aset s'.facadeMap key.toProp s.nextId) key.toProp = some s.nextId
        exact alookup_aset_self _ _ _

theorem facade_removeCore_of_mem (key : JSKey) (s : CoreState)
    (h : (alookup s.facadeMap key.toProp).isSome = true) :
    Facade.removeCore key s =
      { modelMap := adel s.modelMap key.toProp
        viewMap := adel s.viewMap key.toProp
        controllerMap := adel s.controllerMap key.toProp
        facadeMap := adel s.facadeMap key.toProp
        nextId := s.nextId } := by
  simp [Facade.removeCore, h, Model.removeModel, View.removeView, Controller.removeController]

theorem facade_removeCore_of_none (key : JSKey) (s : CoreState)
    (h : alookup s.facadeMap key.toProp = none) :
    Facade.removeCore key s = s := by
  simp [Facade.removeCore, h]

theorem view_dispatchList_log (env : ObsEnv) (note : Notification) :
    ∀ (l : List ObserverObj) (st : ViewState × List ObserverObj),
      (View.dispatchList env note l st).2 = st.2 ++ l := by
  intro l
  induction l with
  | nil => intro st; simp [View.dispatchList]
  | cons o rest ih => intro st; simp [View.dispatchList, ih]

/-! ## The claims -/

/-- C1: invoking the `Model` or `Facade` constructor directly with a key
whose instance-map slot is occupied throws the duplicate-key error and
leaves the whole static state (in particular the instance map and the
existing instance) unchanged; with a free key, direct construction succeeds
and registers the new instance under the key. -/
theorem claim_C1 (key : JSKey) (s : CoreState) :
    ((∃ id, alookup s.modelMap key.toProp = some id) →
        Model.construct key s = (Except.error (), s)) ∧
    ((∃ id, alookup s.facadeMap key.toProp = some id) →
        Facade.construct key s = (Except.error (), s)) ∧
    (alookup s.modelMap key.toProp = none →
        (Model.construct key s).1 = Except.ok s.nextId ∧
        alookup ((Model.construct key s).2).modelMap key.toProp = some s.nextId) ∧
    (alookup s.facadeMap key.toProp = none →
        (Facade.construct key s).1 = Except.ok s.nextId ∧
        alookup ((Facade.construct key s).2).facadeMap key.toProp = some s.nextId) := by
  refine ⟨?_, ?_, ?_, ?_⟩
  · rintro ⟨id, h⟩; exact model_construct_of_some key s id h
  · rintro ⟨id, h⟩; exact facade_construct_of_some key s id h
  · intro h
    rw [model_construct_of_none key s h]
    exact ⟨rfl, alookup_aset_self _ _ _⟩
  · intro h
    obtain ⟨h1, h2⟩ := facade_construct_of_none key s h
    exact ⟨h1, by rw [h2]; exact alookup_aset_self _ _ _⟩

theorem claim_C1_witness :
    Model.construct (JSKey.str "k") ⟨[("k", 0)], [], [], [], 1⟩ =
      (Except.error (), ⟨[("k", 0)], [], [], [], 1⟩) ∧
    (Facade.construct (JSKey.str "f") ⟨[("k", 0)], [], [], [], 1⟩).1 = Except.ok 1 ∧
    alookup ((Facade.construct (JSKey.str "f") ⟨[("k", 0)], [], [], [], 1⟩).2).facadeMap "f"
      = some 1 := by
  refine ⟨(claim_C1 (JSKey.str "k") ⟨[("k", 0)], [], [], [], 1⟩).1 ⟨0, by decide⟩, ?_, ?_⟩
  · exact ((claim_C1 (JSKey.str "f") ⟨[("k", 0)], [], [], [], 1⟩).2.2.2 (by decide)).1
  · exact ((claim_C1 (JSKey.str "f") ⟨[("k", 0)], [], [], [], 1⟩).2.2.2 (by decide)).2

/-- C2: for a key with a registered core, `removeCore` makes `hasCore`
false, and both a direct `Model` construction and a direct `Facade`
construction with that key then succeed (no duplicate-key error). -/
theorem claim_C2 (key : JSKey) (s : CoreState) (h : Facade.hasCore key s = true) :
    Facade.hasCore key (Facade.removeCore key s) = false ∧
    (Model.construct key (Facade.removeCore key s)).1
      = Except.ok (Facade.removeCore key s).nextId ∧
    (Facade.construct key (Facade.removeCore key s)).1
      = Except.ok (Facade.removeCore key s).nextId := by
  have hi : (alookup s.facadeMap key.toProp).isSome = true := h
  rw [facade_removeCore_of_mem key s hi]
  refine ⟨?_, ?_, ?_⟩
  · show (alookup (adel s.facadeMap key.toProp) key.toProp).isSome = false
    rw [alookup_adel_self]
    rfl
  · rw [model_construct_of_none]
    exact alookup_adel_self _ _
  · exact (facade_construct_of_none key _ (alookup_adel_self _ _)).1

theorem claim_C2_witness :
    Facade.hasCore (JSKey.str "k") ⟨[("k", 0)], [("k", 1)], [("k", 2)], [("k", 3)], 4⟩ = true ∧
    Facade.hasCore (JSKey.str "k")
        (Facade.removeCore (JSKey.str "k")
          ⟨[("k", 0)], [("k", 1)], [("k", 2)], [("k", 3)], 4⟩) = false ∧
    (Facade.construct (JSKey.str "k")
        (Facade.removeCore (JSKey.str "k")
          ⟨[("k", 0)], [("k", 1)], [("k", 2)], [("k", 3)], 4⟩)).1 = Except.ok 4 := by
  have h := claim_C2 (JSKey.str "k") ⟨[("k", 0)], [("k", 1)], [("k", 2)], [("k", 3)], 4⟩
    (by decide)
  exact ⟨by decide, h.1, h.2.2⟩

/-- C3: when a core is registered under the key, `removeCore` empties
exactly the `Model`, `View`, `Controller` and `Facade` instance-map slots
of that key in one call, leaves every other key's slots in all four maps
untouched, and allocates nothing; when no core is registered it does
nothing at all. -/
theorem claim_C3 (key : JSKey) (s : CoreState) :
    (Facade.hasCore key s = false → Facade.removeCore key s = s) ∧
    (Facade.hasCore key s = true →
      (alookup ((Facade.removeCore key s).modelMap) key.toProp = none ∧
       alookup ((Facade.removeCore key s).viewMap) key.toProp = none ∧
       alookup ((Facade.removeCore key s).controllerMap) key.toProp = none ∧
       alookup ((Facade.removeCore key s).facadeMap) key.toProp = none ∧
       (Facade.removeCore key s).nextId = s.nextId) ∧
      ∀ k' : String, k' ≠ key.toProp →
        alookup ((Facade.removeCore key s).modelMap) k' = alookup s.modelMap k' ∧
        alookup ((Facade.removeCore key s).viewMap) k' = alookup s.viewMap k' ∧
        alookup ((Facade.removeCore key s).controllerMap) k' = alookup s.controllerMap k' ∧
        alookup ((Facade.removeCore key s).facadeMap) k' = alookup s.facadeMap k') := by
  constructor
  · intro h
    cases ho : alookup s.facadeMap key.toProp with
    | none => exact facade_removeCore_of_none key s ho
    | some id =>
        exfalso
        have : Facade.hasCore key s = true := by
          show (alookup s.facadeMap key.toProp).isSome = true
          rw [ho]; rfl
        rw [this] at h
        exact absurd h (by simp)
  · intro h
    rw [facade_removeCore_of_mem key s h]
    refine ⟨⟨alookup_adel_self _ _, alookup_adel_self _ _, alookup_adel_self _ _,
      alookup_adel_self _ _, rfl⟩, ?_⟩
    intro k' hk'
    exact ⟨alookup_adel_ne _ _ _ hk', alookup_adel_ne _ _ _ hk',
      alookup_adel_ne _ _ _ hk', alookup_adel_ne _ _ _ hk'⟩

theorem claim_C3_witness :
    alookup ((Facade.removeCore (JSKey.str "k")
        ⟨[("k", 0), ("j", 7)], [("k", 1)], [("k", 2)], [("k", 3)], 4⟩).modelMap) "k" = none ∧
    alookup ((Facade.removeCore (JSKey.str "k")
        ⟨[("k", 0), ("j", 7)], [("k", 1)], [("k", 2)], [("k", 3)], 4⟩).modelMap) "j"
      = alookup [("k", 0), ("j", 7)] "j" := by
  have h := (claim_C3 (JSKey.str "k")
    ⟨[("k", 0), ("j", 7)], [("k", 1)], [("k", 2)], [("k", 3)], 4⟩).2 (by decide)
  exact ⟨h.1.1, (h.2 "j" (by decide)).1⟩

/-- C6: `getInstance` is a per-key singleton factory on both `Model` and
`Facade`: a second call after any first call returns the very same result
and changes nothing (so the instance first created for a key keeps being
returned until the key is removed); for a truthy key the call actually
yields an instance, recorded in the instance map. -/
theorem claim_C6 (key : JSKey) (s : CoreState) :
    (Model.getInstance key ((Model.getInstance key s).2)
        = ((Model.getInstance key s).1, (Model.getInstance key s).2)) ∧
    (Facade.getInstance key ((Facade.getInstance key s).2)
        = ((Facade.getInstance key s).1, (Facade.getInstance key s).2)) ∧
    (key.truthy = true →
      (∃ id, (Model.getInstance key s).1 = Except.ok (some id) ∧
        alookup ((Model.getInstance key s).2).modelMap key.toProp = some id) ∧
      (∃ id, (Facade.getInstance key s).1 = Except.ok (some id) ∧
        alookup ((Facade.getInstance key s).2).facadeMap key.toProp = some id)) := by
  by_cases h : key.truthy = true
  · refine ⟨?_, ?_, fun _ =>
      ⟨model_getInstance_truthy key s h, facade_getInstance_truthy key s h⟩⟩
    · obtain ⟨id, h1, h2⟩ := model_getInstance_truthy key s h
      rw [model_getInstance_of_some key _ id h h2, h1]
    · obtain ⟨id, h1, h2⟩ := facade_getInstance_truthy key s h
      rw [facade_getInstance_of_some key _ id h h2, h1]
  · have h' : key.truthy = false := by simpa using h
    refine ⟨?_, ?_, fun hc => absurd hc h⟩
    · rw [model_getInstance_of_falsy key s h']
      rw [model_getInstance_of_falsy key s h']
    · rw [facade_getInstance_of_falsy key s h']
      rw [facade_getInstance_of_falsy key s h']

theorem claim_C6_witness :
    Facade.getInstance (JSKey.str "k")
        ((Facade.getInstance (JSKey.str "k") ⟨[], [], [], [], 0⟩).2)
      = ((Facade.getInstance (JSKey.str "k") ⟨[], [], [], [], 0⟩).1,
         (Facade.getInstance (JSKey.str "k") ⟨[], [], [], [], 0⟩).2) ∧
    (∃ id, (Model.getInstance (JSKey.str "k") ⟨[], [], [], [], 0⟩).1 = Except.ok (some id) ∧
      alookup ((Model.getInstance (JSKey.str "k") ⟨[], [], [], [], 0⟩).2).modelMap "k"
        = some id) := by
  have h := claim_C6 (JSKey.str "k") ⟨[], [], [], [], 0⟩
  exact ⟨h.2.1, (h.2.2 (by decide)).1⟩

/-- C9: for a falsy key (`null`, `undefined` or `""`), `Model.getInstance`
and `Facade.getInstance` return `null` without constructing an instance
and without touching any static state. -/
theorem claim_C9 (key : JSKey) (s : CoreState) (h : key.truthy = false) :
    Model.getInstance key s = (Except.ok none, s) ∧
    Facade.getInstance key s = (Except.ok none, s) :=
  ⟨model_getInstance_of_falsy key s h, facade_getInstance_of_falsy key s h⟩

theorem claim_C9_witness :
    Model.getInstance JSKey.null ⟨[("k", 0)], [], [], [], 1⟩
      = (Except.ok none, ⟨[("k", 0)], [], [], [], 1⟩) ∧
    Facade.getInstance JSKey.null ⟨[("k", 0)], [], [], [], 1⟩
      = (Except.ok none, ⟨[("k", 0)], [], [], [], 1⟩) :=
  claim_C9 JSKey.null ⟨[("k", 0)], [], [], [], 1⟩ (by decide)

/-- C5: on a name with no registered proxy, `Model.removeProxy` returns a
null-equivalent value, performs no map write and invokes no lifecycle
hook (its effect trace is empty), `Model.retrieveProxy` returns a
null-equivalent value, and `Facade.removeProxy` behaves the same through
delegation (returning `null` outright when the facade has no model); all
these operations are total, so none can raise. -/
theorem claim_C5 (m : PMap) (n : String) (h : Model.hasProxy m n = false) :
    (Model.removeProxy m n).1.isNullEquiv = true ∧
    (Model.removeProxy m n).2.1 = m ∧
    (Model.removeProxy m n).2.2 = [] ∧
    (Model.retrieveProxy m n).isNullEquiv = true ∧
    (Facade.removeProxy (some m) n).1.isNullEquiv = true ∧
    (Facade.removeProxy (some m) n).2.1 = some m ∧
    (Facade.removeProxy (some m) n).2.2 = [] ∧
    Facade.removeProxy none n = (PEntry.nul, none, []) := by
  have he : (pmGet m n).truthy = false := h
  cases hg : pmGet m n with
  | prox p => rw [hg] at he; simp [PEntry.truthy] at he
  | undef =>
      simp [Model.removeProxy, Model.retrieveProxy, Facade.removeProxy, hg,
        PEntry.isNullEquiv, PEntry.truthy]
  | nul =>
      simp [Model.removeProxy, Model.retrieveProxy, Facade.removeProxy, hg,
        PEntry.isNullEquiv, PEntry.truthy]

theorem claim_C5_witness :
    Model.hasProxy [("p", PEntry.prox ⟨1, "p"⟩)] "q" = false ∧
    (Model.removeProxy [("p", PEntry.prox ⟨1, "p"⟩)] "q").2.1 = [("p", PEntry.prox ⟨1, "p"⟩)] ∧
    (Model.removeProxy [("p", PEntry.prox ⟨1, "p"⟩)] "q").2.2 = [] := by
  have h := claim_C5 [("p", PEntry.prox ⟨1, "p"⟩)] "q" (by decide)
  exact ⟨by decide, h.2.1, h.2.2.1⟩

/-- C7: `Model.registerProxy` produces exactly the effect trace
`initializeNotifier(key)`, store in the map, `onRegister` — one lifecycle
registration hook, invoked after the map write and after
`initializeNotifier` received the model's multiton key; `Model.removeProxy`
on a registered name produces exactly clear the map slot, `onRemove` — one
hook, invoked after the slot was cleared. No other hook appears in either
trace. -/
theorem claim_C7 (mk : JSKey) (m : PMap) (p : ProxyObj) (n : String) (q : ProxyObj)
    (h : pmGet m n = PEntry.prox q) :
    (Model.registerProxy mk m p).2
      = [PEvent.initNotifier p.id mk, PEvent.storeEntry p.name p.id,
         PEvent.onRegister p.id] ∧
    (Model.removeProxy m n).2.2 = [PEvent.clearEntry n, PEvent.onRemove q.id] ∧
    (Model.removeProxy m n).1 = PEntry.prox q := by
  refine ⟨rfl, ?_, ?_⟩ <;> simp [Model.removeProxy, h]

theorem claim_C7_witness :
    pmGet [("p", PEntry.prox ⟨1, "p"⟩)] "p" = PEntry.prox ⟨1, "p"⟩ ∧
    (Model.registerProxy (JSKey.str "k") [("p", PEntry.prox ⟨1, "p"⟩)] ⟨2, "r"⟩).2
      = [PEvent.initNotifier 2 (JSKey.str "k"), PEvent.storeEntry "r" 2,
         PEvent.onRegister 2] ∧
    (Model.removeProxy [("p", PEntry.prox ⟨1, "p"⟩)] "p").2.2
      = [PEvent.clearEntry "p", PEvent.onRemove 1] := by
  have h := claim_C7 (JSKey.str "k") [("p", PEntry.prox ⟨1, "p"⟩)] ⟨2, "r"⟩ "p" ⟨1, "p"⟩
    (by decide)
  exact ⟨by decide, h.1, h.2.1⟩

/-- C10: the register/retrieve round-trip — right after
`Model.registerProxy p`, `hasProxy (p.getProxyName())` is true and
`retrieveProxy (p.getProxyName())` is `p` itself; and right after
`Model.removeProxy n` of a registered name `n`, `hasProxy n` is false and
`retrieveProxy n` is null-equivalent. -/
theorem claim_C10 (mk : JSKey) (m : PMap) (p : ProxyObj) (n : String) (q : ProxyObj)
    (h : pmGet m n = PEntry.prox q) :
    Model.hasProxy (Model.registerProxy mk m p).1 p.name = true ∧
    Model.retrieveProxy (Model.registerProxy mk m p).1 p.name = PEntry.prox p ∧
    Model.hasProxy (Model.removeProxy m n).2.1 n = false ∧
    (Model.retrieveProxy (Model.removeProxy m n).2.1 n).isNullEquiv = true := by
  refine ⟨?_, ?_, ?_, ?_⟩
  · show (pmGet (pmSet m p.name (PEntry.prox p)) p.name).truthy = true
    rw [pmGet_pmSet_self]
    rfl
  · show pmGet (pmSet m p.name (PEntry.prox p)) p.name = PEntry.prox p
    exact pmGet_pmSet_self _ _ _
  · simp [Model.removeProxy, h, Model.hasProxy, pmGet_pmSet_self, PEntry.truthy]
  · simp [Model.removeProxy, h, Model.retrieveProxy, pmGet_pmSet_self,
      PEntry.isNullEquiv, PEntry.truthy]

theorem claim_C10_witness :
    Model.hasProxy
        (Model.registerProxy (JSKey.str "k") [("p", PEntry.prox ⟨1, "p"⟩)] ⟨2, "r"⟩).1 "r"
      = true ∧
    Model.hasProxy (Model.removeProxy [("p", PEntry.prox ⟨1, "p"⟩)] "p").2.1 "p" = false := by
  have h := claim_C10 (JSKey.str "k") [("p", PEntry.prox ⟨1, "p"⟩)] ⟨2, "r"⟩ "p" ⟨1, "p"⟩
    (by decide)
  exact ⟨h.1, h.2.2.1⟩

/-- C4: `Facade.sendNotification(name, body, type)` builds exactly one
`Notification` carrying those three values and forwards exactly it to
`View.notifyObservers` through `Facade.notifyObservers`, synchronously (the
result is fully computed in the same call); when the facade's view is
absent, `notifyObservers` forwards nothing and changes nothing. -/
theorem claim_C4 (env : ObsEnv) (view : Option ViewState) (name : String)
    (body type : JSVal) :
    (∀ vs, view = some vs →
        Facade.sendNotification env view name body type
          = (some (View.notifyObservers env (Notification.mk name body type) vs).1,
             [Notification.mk name body type])) ∧
    (view = none → Facade.sendNotification env view name body type = (view, [])) := by
  constructor
  · rintro vs rfl
    rfl
  · rintro rfl
    rfl

theorem claim_C4_witness :
    Facade.sendNotification (fun _ _ st => st) (some ⟨[]⟩) "greet"
        (JSVal.str "hello") (JSVal.str "info")
      = (some (View.notifyObservers (fun _ _ st => st)
            (Notification.mk "greet" (JSVal.str "hello") (JSVal.str "info")) ⟨[]⟩).1,
         [Notification.mk "greet" (JSVal.str "hello") (JSVal.str "info")]) :=
  (claim_C4 (fun _ _ st => st) (some ⟨[]⟩) "greet"
    (JSVal.str "hello") (JSVal.str "info")).1 ⟨[]⟩ rfl

/-- C8: `View.notifyObservers` dispatches over a snapshot of the observer
sequence for the notification's name taken before any observer runs: the
observers invoked are exactly the snapshot, in snapshot order, for every
possible callback behaviour `env` — in particular for callbacks that
register or remove observers for the same name mid-dispatch; and with no
sequence registered for the name it returns the state untouched, invoking
nobody. -/
theorem claim_C8 (env : ObsEnv) (note : Notification) (s : ViewState) :
    (omGet s note.name = none → View.notifyObservers env note s = (s, [])) ∧
    (∀ snapshot, omGet s note.name = some snapshot →
        (View.notifyObservers env note s).2 = snapshot) := by
  constructor
  · intro h
    simp [View.notifyObservers, h]
  · intro snapshot h
    simp [View.notifyObservers, h, view_dispatchList_log]

theorem claim_C8_witness :
    (View.notifyObservers (fun _ _ _ => ⟨[]⟩)
        (Notification.mk "X" JSVal.undef JSVal.undef)
        ⟨[("X", [⟨1, 1⟩, ⟨2, 2⟩])]⟩).2 = [⟨1, 1⟩, ⟨2, 2⟩] :=
  (claim_C8 (fun _ _ _ => ⟨[]⟩) (Notification.mk "X" JSVal.undef JSVal.undef)
    ⟨[("X", [⟨1, 1⟩, ⟨2, 2⟩])]⟩).2 [⟨1, 1⟩, ⟨2, 2⟩] rfl
